import Mathlib

/-!
Shallow embedding of `src/programs/solana-twitter/src/lib.rs`, an Anchor
program stub with a single instruction handler.

The Rust source is:

  declare_id!("H4FBVtcR7yKNWJWnwK6wwEtREYaF5Vi6w9R1uHZXRw7F");

  #[program]
  pub mod solana_twitter {
      pub fn initialize(ctx: Context<Initialize>) -> Result<()> {
          Ok(())
      }
  }

  #[derive(Accounts)]
  pub struct Initialize {}
-/

namespace SolanaTwitter

/-- The program identifier declared at compile time by `declare_id!`. -/
def declared_id : String := "H4FBVtcR7yKNWJWnwK6wwEtREYaF5Vi6w9R1uHZXRw7F"

/-- An account as visible to a program: a key, a lamport balance and raw data.
This models the runtime-managed account a handler could read or write. -/
structure AccountInfo where
  key : Nat
  lamports : Nat
  data : List Nat
deriving DecidableEq, Repr

/-- The `Initialize` accounts struct from the source. It is declared with an
empty body (`pub struct Initialize {}`), so it has no fields. -/
structure Initialize where
deriving DecidableEq, Repr

/-- The Anchor `Context` passed to a handler: the routed program id, the
deserialized accounts struct, and any remaining accounts. -/
structure Context (α : Type) where
  program_id : String
  accounts : α
  remaining_accounts : List AccountInfo
deriving Repr

/-- An Anchor program error, modelled by its error code. -/
abbrev ProgramError := Nat

/-- The `Result<()>` return type of an Anchor handler. -/
abbrev HandlerResult := Except ProgramError Unit

/-- The `initialize` handler. The Rust body is exactly `Ok(())`. -/
def initializeHandler (ctx : Context Initialize ) : HandlerResult :=
  Except.ok ()

/-- The observable program state held by the host runtime: the set of
accounts and the log of emitted events. The handler body performs no reads,
writes or emissions, so its state-passing embedding threads the state
through unchanged. -/
structure ProgramState where
  accounts : List AccountInfo
  events : List String
deriving DecidableEq, Repr

/-- The state-passing embedding of one invocation of `initialize`: the body
`Ok(())` touches no account and emits nothing, so the state passes through. -/
def initializeStep (ctx : Context Initialize ) (s : ProgramState) :
    HandlerResult × ProgramState :=
  ( initializeHandler ctx, s)

/-- The instruction surface of the `#[program]` module `solana_twitter`:
the module declares exactly one handler. -/
inductive Instruction where
  | initializeInstr
deriving DecidableEq, Repr

/-- Dispatch of an instruction to its handler, as generated by `#[program]`:
the only instruction routes to `initialize` with no further parameters. -/
def dispatch (i : Instruction) (ctx : Context Initialize ) : HandlerResult :=
  match i with
  | Instruction.initializeInstr => initializeHandler ctx

end SolanaTwitter

namespace SolanaTwitter

/-- C1: for every validly constructed empty Initialize context, invoking the
initialize handler returns the success result `Ok(())`. -/
theorem initialize_returns_ok (ctx : Context Initialize ) :
    initializeHandler ctx = Except.ok () := rfl

/-- C2: an invocation of the initialize handler reads and writes no account
state: the program state after the call equals the state before the call, so
no accounts are modified and no events are emitted. -/
theorem initialize_frame (ctx : Context Initialize ) (s : ProgramState) :
    (initializeStep ctx s).2 = s := rfl

/-- C3: the initialize handler has no failure path: for every input context,
its result is never the `Err` variant of its `Result` return type. -/
theorem initialize_never_err (ctx : Context Initialize ) (e : ProgramError) :
    initializeHandler ctx ≠ Except.error e := by
  intro h
  simp [initializeHandler] at h

/-- C4: the `Initialize` context type is an empty structure with zero fields,
so every value of the type carries no data: any two values are equal. -/
theorem initialize_struct_empty (a b : Initialize ) : a = b := rfl

/-- C5: the instruction surface consists of exactly one instruction,
`initialize`; it takes zero parameters beyond the context, and dispatching it
yields the handler's success/failure result value. -/
theorem instruction_surface_unique :
    (∀ i : Instruction, i = Instruction.initializeInstr) ∧
    (∀ (i : Instruction) (ctx : Context Initialize ),
      dispatch i ctx = initializeHandler ctx) := by
  constructor
  · intro i
    cases i
    rfl
  · intro i ctx
    cases i
    rfl

/-- C6: the program identifier is the single fixed compile-time constant
"H4FBVtcR7yKNWJWnwK6wwEtREYaF5Vi6w9R1uHZXRw7F", identical on every
invocation since it is a closed definition. -/
theorem declared_id_fixed :
    declared_id = "H4FBVtcR7yKNWJWnwK6wwEtREYaF5Vi6w9R1uHZXRw7F" := rfl

/-- C7: the result of the initialize handler is independent of its context
argument: any two invocations return equal results. -/
theorem initialize_ctx_independent (c₁ c₂ : Context Initialize ) :
    initializeHandler c₁ = initializeHandler c₂ := rfl

/-- C8: the initialize handler is total and terminating: it is a total Lean
function (no recursion, no loops in the source body), so every invocation
produces a result value. -/
theorem initialize_total (ctx : Context Initialize ) :
    ∃ r : HandlerResult, initializeHandler ctx = r := ⟨Except.ok (), rfl⟩

/-- C9: the initialize handler is idempotent: invoking it a second time on
the state produced by a first invocation yields the same result and the same
final state as the single invocation. -/
theorem initialize_idempotent (ctx : Context Initialize ) (s : ProgramState) :
    initializeStep ctx (initializeStep ctx s).2 = initializeStep ctx s := rfl

end SolanaTwitter
